import Mathlib

/-!
Verification of the BMI engine in `src/main.py`.

The Python source works on IEEE doubles; here every numeric value is
modelled as an exact rational (ℚ), the standard idealisation for this
kind of closed-form arithmetic.  Python's builtin `round` (used with one
decimal digit in `calculate_bmi` and with no digits in
`healthy_weight_range_lbs`) rounds to nearest with ties to even, and is
modelled by `pyRound` below.  A `ZeroDivisionError` in `calculate_bmi`
is modelled by an `Option` result.
-/

/-- Constant `LBS_TO_KG = 0.45359237` from `src/main.py`. -/
def LBS_TO_KG : ℚ := 0.45359237

/-- Constant `IN_TO_M = 0.0254` from `src/main.py`. -/
def IN_TO_M : ℚ := 0.0254

/-- One entry of the `CATEGORY_BOUNDS` table: `(lo, hi, name, color, emoji)`.
`hi = none` models Python's `float('inf')` upper bound. -/
structure CatEntry where
  lo : ℚ
  hi : Option ℚ
  name : String
  color : String
  emoji : String
deriving DecidableEq

/-- The `CATEGORY_BOUNDS` list from `src/main.py`. -/
def CATEGORY_BOUNDS : List CatEntry :=
  [⟨0, some 18.5, "Underweight", "#60a5fa", "🪁"⟩,
   ⟨18.5, some 25, "Normal weight", "#34d399", "🥑"⟩,
   ⟨25, some 30, "Overweight", "#f59e0b", "🍯"⟩,
   ⟨30, none, "Obesity", "#ef4444", "🍰"⟩]

/-- Python's builtin `round` to the nearest integer: round half to even. -/
def pyRound (q : ℚ) : ℤ :=
  if q - ⌊q⌋ < 1/2 then ⌊q⌋
  else if 1/2 < q - ⌊q⌋ then ⌊q⌋ + 1
  else if ⌊q⌋ % 2 = 0 then ⌊q⌋ else ⌊q⌋ + 1

/-- Python's `round(x, 1)`: round to one decimal digit, ties to even. -/
def round1 (q : ℚ) : ℚ := (pyRound (q * 10) : ℚ) / 10

/-- `to_metric(feet, inches, lbs)` from `src/main.py`:
clamps total inches to at least 1, then scales into metres and kilograms. -/
def to_metric (feet inches : ℤ) (lbs : ℚ) : ℚ × ℚ :=
  let total_inches : ℤ := max (feet * 12 + inches) 1
  ((total_inches : ℚ) * IN_TO_M, lbs * LBS_TO_KG)

/-- `calculate_bmi(height_m, weight_kg)` from `src/main.py`:
`round(weight_kg / height_m ** 2, 1)`.  The division raises
`ZeroDivisionError` exactly when `height_m ** 2 == 0`, modelled as `none`. -/
def calculate_bmi (height_m weight_kg : ℚ) : Option ℚ :=
  if height_m ^ 2 = 0 then none
  else some (round1 (weight_kg / height_m ^ 2))

/-- The dict `{"name": ..., "color": ..., "emoji": ...}` that
`bmi_category` returns. -/
structure CatResult where
  name : String
  color : String
  emoji : String
deriving DecidableEq

/-- The loop condition `lo <= bmi < hi` of `bmi_category`
(`hi = none` is `float('inf')`, so any rational is below it). -/
def inBound (e : CatEntry) (bmi : ℚ) : Bool :=
  decide (e.lo ≤ bmi) &&
    (match e.hi with
     | some h => decide (bmi < h)
     | none => true)

/-- The `for` loop of `bmi_category`: return the first matching entry,
else the `"Unknown"` fallback. -/
def findCat : List CatEntry → ℚ → CatResult
  | [], _ => ⟨"Unknown", "#6b7280", "❓"⟩
  | e :: rest, bmi =>
      if inBound e bmi then ⟨e.name, e.color, e.emoji⟩ else findCat rest bmi

/-- `bmi_category(bmi)` from `src/main.py`. -/
def bmi_category (bmi : ℚ) : CatResult := findCat CATEGORY_BOUNDS bmi

/-- `healthy_weight_range_lbs(height_m)` from `src/main.py`. -/
def healthy_weight_range_lbs (height_m : ℚ) : ℤ × ℤ :=
  let low_kg := 18.5 * height_m ^ 2
  let high_kg := 24.9 * height_m ^ 2
  let low_lbs := low_kg / LBS_TO_KG
  let high_lbs := high_kg / LBS_TO_KG
  (pyRound low_lbs, pyRound high_lbs)

/-- Interval index of a category name: position of the interval in
`CATEGORY_BOUNDS` (4 for the `"Unknown"` fallback, which has no interval). -/
def nameIdx (n : String) : ℕ :=
  if n = "Underweight" then 0
  else if n = "Normal weight" then 1
  else if n = "Overweight" then 2
  else if n = "Obesity" then 3
  else 4

/-! ### Basic facts about the rounding model -/

lemma pyRound_eq_floor_or_succ (q : ℚ) :
    pyRound q = ⌊q⌋ ∨ pyRound q = ⌊q⌋ + 1 := by
  unfold pyRound
  split_ifs <;> simp

lemma pyRound_le (q : ℚ) : (pyRound q : ℚ) ≤ q + 1/2 := by
  have hfl : (⌊q⌋ : ℚ) ≤ q := Int.floor_le q
  unfold pyRound
  split_ifs with h1 h2 h3 <;> push_cast <;> linarith

lemma le_pyRound (q : ℚ) : q - 1/2 ≤ (pyRound q : ℚ) := by
  have hfl : q < ⌊q⌋ + 1 := Int.lt_floor_add_one q
  unfold pyRound
  split_ifs with h1 h2 h3 <;> push_cast <;> linarith

lemma pyRound_mono {x y : ℚ} (h : x ≤ y) : pyRound x ≤ pyRound y := by
  have hf : ⌊x⌋ ≤ ⌊y⌋ := Int.floor_le_floor h
  rcases lt_or_eq_of_le hf with hlt | heq
  · rcases pyRound_eq_floor_or_succ x with hx | hx <;>
      rcases pyRound_eq_floor_or_succ y with hy | hy <;> omega
  · have hr : x - (⌊x⌋ : ℚ) ≤ y - (⌊y⌋ : ℚ) := by
      rw [heq] at *
      linarith
    unfold pyRound
    split_ifs with a1 a2 b1 b2 b3 b4 b5 b6 b7 <;>
      simp only [heq, le_refl, le_add_iff_nonneg_right] <;>
      first
        | omega
        | (exfalso; rw [heq] at *; linarith)

lemma pyRound_lt_of_gap {x y : ℚ} (h : x + 1 < y) : pyRound x < pyRound y := by
  have h1 := pyRound_le x
  have h2 := le_pyRound y
  have : (pyRound x : ℚ) < (pyRound y : ℚ) := by linarith
  exact_mod_cast this

/-! ### Characterisation of `bmi_category` on each interval -/

lemma bmi_category_underweight {b : ℚ} (h0 : 0 ≤ b) (h : b < 18.5) :
    bmi_category b = ⟨"Underweight", "#60a5fa", "🪁"⟩ := by
  simp [bmi_category, CATEGORY_BOUNDS, findCat, inBound, h0, h]

lemma bmi_category_normal {b : ℚ} (h1 : 18.5 ≤ b) (h2 : b < 25) :
    bmi_category b = ⟨"Normal weight", "#34d399", "🥑"⟩ := by
  have hn : ¬ b < 18.5 := not_lt.2 h1
  have h0 : (0:ℚ) ≤ b := by linarith
  simp [bmi_category, CATEGORY_BOUNDS, findCat, inBound, h0, h1, h2, hn]

lemma bmi_category_over {b : ℚ} (h1 : 25 ≤ b) (h2 : b < 30) :
    bmi_category b = ⟨"Overweight", "#f59e0b", "🍯"⟩ := by
  have hn1 : ¬ b < 18.5 := by linarith
  have hn2 : ¬ b < 25 := not_lt.2 h1
  have h0 : (0:ℚ) ≤ b := by linarith
  simp [bmi_category, CATEGORY_BOUNDS, findCat, inBound, h0, h1, h2, hn1, hn2]

lemma bmi_category_obese {b : ℚ} (h1 : 30 ≤ b) :
    bmi_category b = ⟨"Obesity", "#ef4444", "🍰"⟩ := by
  have hn1 : ¬ b < 18.5 := by linarith
  have hn2 : ¬ b < 25 := by linarith
  have hn3 : ¬ b < 30 := not_lt.2 h1
  simp [bmi_category, CATEGORY_BOUNDS, findCat, inBound, h1, hn1, hn2, hn3]

lemma healthy_weight_range_lbs_def (h : ℚ) :
    healthy_weight_range_lbs h =
      (pyRound (18.5 * h ^ 2 / LBS_TO_KG), pyRound (24.9 * h ^ 2 / LBS_TO_KG)) := rfl

/-! ### Claims -/

/-- C1: `calculate_bmi(height_m, weight_kg)` returns `weight_kg` divided by
the square of `height_m`, rounded to one decimal place, for every
`height_m > 0` and every `weight_kg`. -/
theorem bmi_formula (height_m weight_kg : ℚ) (h : 0 < height_m) :
    calculate_bmi height_m weight_kg = some (round1 (weight_kg / height_m ^ 2)) := by
  unfold calculate_bmi
  rw [if_neg (pow_ne_zero 2 (ne_of_gt h))]

/-- Witness for C1 at `height_m = 2`, `weight_kg = 85`. -/
theorem bmi_formula_witness :
    calculate_bmi 2 85 = some (round1 (85 / 2 ^ 2)) :=
  bmi_formula 2 85 (by norm_num)

/-- C2: classification uses half-open lower-inclusive intervals, so each
boundary value belongs to the higher category: 18.5 and 24.9999 are Normal,
25.0 and 29.9999 are Overweight, 30.0 is Obesity. -/
theorem boundary_classification :
    (bmi_category 18.5).name = "Normal weight" ∧
    (bmi_category (249999/10000)).name = "Normal weight" ∧
    (bmi_category 25).name = "Overweight" ∧
    (bmi_category (299999/10000)).name = "Overweight" ∧
    (bmi_category 30).name = "Obesity" := by
  refine ⟨?_, ?_, ?_, ?_, ?_⟩
  · rw [bmi_category_normal (by norm_num) (by norm_num)]
  · rw [bmi_category_normal (by norm_num) (by norm_num)]
  · rw [bmi_category_over (by norm_num) (by norm_num)]
  · rw [bmi_category_over (by norm_num) (by norm_num)]
  · rw [bmi_category_obese (by norm_num)]

/-- C3 counterexample: on feet=5, inches=0, pounds=110 the pipeline gives
height 1.524 m (not 1.27), BMI 21.5 (not 30.9) and category
"Normal weight" (not "Obesity"), refuting the claimed example. -/
theorem pipeline_5ft0_cex :
    (to_metric 5 0 110).1 = 1.524 ∧ (1.524 : ℚ) ≠ 1.27 ∧
    calculate_bmi (to_metric 5 0 110).1 (to_metric 5 0 110).2 = some 21.5 ∧
    (21.5 : ℚ) ≠ 30.9 ∧
    (bmi_category 21.5).name = "Normal weight" ∧
    ("Normal weight" : String) ≠ "Obesity" := by
  have hm : to_metric 5 0 110 = (1.524, 49.8951607) := by
    unfold to_metric IN_TO_M LBS_TO_KG; norm_num
  refine ⟨by rw [hm], by norm_num, ?_, by norm_num, ?_, by decide⟩
  · rw [hm]
    unfold calculate_bmi round1 pyRound
    norm_num
  · rw [bmi_category_normal (by norm_num) (by norm_num)]

/-- C3 amended: on feet=5, inches=0, pounds=110 the pipeline produces
height_m = 1.524, weight_kg = 49.8951607, BMI = 21.5 and category
"Normal weight". -/
theorem pipeline_5ft0 :
    to_metric 5 0 110 = (1.524, 49.8951607) ∧
    calculate_bmi (to_metric 5 0 110).1 (to_metric 5 0 110).2 = some 21.5 ∧
    (bmi_category 21.5).name = "Normal weight" := by
  have hm : to_metric 5 0 110 = (1.524, 49.8951607) := by
    unfold to_metric IN_TO_M LBS_TO_KG; norm_num
  refine ⟨hm, ?_, ?_⟩
  · rw [hm]
    unfold calculate_bmi round1 pyRound
    norm_num
  · rw [bmi_category_normal (by norm_num) (by norm_num)]

/-- C4 counterexample: on feet=5, inches=7, pounds=165 the healthy weight
range returned by the code is (118, 159) pounds, refuting the claimed
range of approximately 123 to 166 (off by 5 and 7 pounds). -/
theorem pipeline_5ft7_cex :
    healthy_weight_range_lbs (to_metric 5 7 165).1 = (118, 159) ∧
    ¬ ((123 : ℤ) - 1 ≤ 118 ∧ (118 : ℤ) ≤ 123 + 1) ∧
    ¬ ((166 : ℤ) - 1 ≤ 159 ∧ (159 : ℤ) ≤ 166 + 1) := by
  have hm : to_metric 5 7 165 = (1.7018, 74.84274105) := by
    unfold to_metric IN_TO_M LBS_TO_KG; norm_num
  refine ⟨?_, by omega, by omega⟩
  rw [hm]
  unfold healthy_weight_range_lbs pyRound LBS_TO_KG
  norm_num

/-- C4 amended: on feet=5, inches=7, pounds=165 the pipeline produces
height_m = 1.7018, weight_kg = 74.84274105, BMI = 25.8, category
"Overweight", and a healthy weight range of 118 to 159 pounds. -/
theorem pipeline_5ft7 :
    to_metric 5 7 165 = (1.7018, 74.84274105) ∧
    calculate_bmi (to_metric 5 7 165).1 (to_metric 5 7 165).2 = some 25.8 ∧
    (bmi_category 25.8).name = "Overweight" ∧
    healthy_weight_range_lbs (to_metric 5 7 165).1 = (118, 159) := by
  have hm : to_metric 5 7 165 = (1.7018, 74.84274105) := by
    unfold to_metric IN_TO_M LBS_TO_KG; norm_num
  refine ⟨hm, ?_, ?_, ?_⟩
  · rw [hm]
    unfold calculate_bmi round1 pyRound
    norm_num
  · rw [bmi_category_over (by norm_num) (by norm_num)]
  · rw [hm]
    unfold healthy_weight_range_lbs pyRound LBS_TO_KG
    norm_num

/-- C5: for every integer feet ≥ 0, inches in [0,11] and pounds > 0,
`to_metric` returns height `max(feet*12 + inches, 1) * 0.0254` metres and
weight `pounds * 0.45359237` kilograms, and always succeeds (it is a total
function). -/
theorem to_metric_formula (feet inches : ℤ) (lbs : ℚ)
    (_h1 : 0 ≤ feet) (_h2 : 0 ≤ inches) (_h3 : inches ≤ 11) (_h4 : 0 < lbs) :
    to_metric feet inches lbs =
      (((max (feet * 12 + inches) 1 : ℤ) : ℚ) * 0.0254, lbs * 0.45359237) := rfl

/-- Witness for C5 at feet=5, inches=7, pounds=165. -/
theorem to_metric_formula_witness :
    to_metric 5 7 165 =
      (((max (5 * 12 + 7 : ℤ) 1 : ℤ) : ℚ) * 0.0254, (165 : ℚ) * 0.45359237) :=
  to_metric_formula 5 7 165 (by norm_num) (by norm_num) (by norm_num) (by norm_num)

/-- C6 counterexample: at height 0.0254 m (one inch, which the converter
itself can produce for feet=0, inches=0) both healthy-weight bounds round
to 0, so `low_pounds < high_pounds` fails for a positive height. -/
theorem healthy_range_cex :
    (0 : ℚ) < 0.0254 ∧
    healthy_weight_range_lbs 0.0254 = (0, 0) ∧
    ¬ ((healthy_weight_range_lbs 0.0254).1 < (healthy_weight_range_lbs 0.0254).2) := by
  have h00 : healthy_weight_range_lbs 0.0254 = (0, 0) := by
    unfold healthy_weight_range_lbs pyRound LBS_TO_KG
    norm_num
  refine ⟨by norm_num, h00, ?_⟩
  rw [h00]
  omega

/-- C6 amended: for every height_m > 0 the bounds satisfy
`low_pounds ≤ high_pounds`, where `low_pounds = round(18.5 * height_m ^ 2 /
0.45359237)` and `high_pounds = round(24.9 * height_m ^ 2 / 0.45359237)`;
the strict inequality `low_pounds < high_pounds` holds whenever
`height_m ≥ 0.27` (in particular for every height the UI can supply,
feet ≥ 3), but fails for very small heights where both bounds round to
the same integer. -/
theorem healthy_range_ordered (height_m : ℚ) (_h : 0 < height_m) :
    (healthy_weight_range_lbs height_m).1 ≤ (healthy_weight_range_lbs height_m).2 ∧
    (27/100 ≤ height_m →
      (healthy_weight_range_lbs height_m).1 < (healthy_weight_range_lbs height_m).2) := by
  rw [healthy_weight_range_lbs_def]
  dsimp only
  constructor
  · apply pyRound_mono
    unfold LBS_TO_KG
    rw [div_le_div_iff₀ (by norm_num) (by norm_num)]
    nlinarith [sq_nonneg height_m]
  · intro h27
    apply pyRound_lt_of_gap
    have hsq : (27/100 : ℚ) * (27/100) ≤ height_m * height_m :=
      mul_self_le_mul_self (by norm_num) h27
    unfold LBS_TO_KG
    have e : 18.5 * height_m ^ 2 / (0.45359237 : ℚ) + 1 =
        (18.5 * height_m ^ 2 + 0.45359237) / 0.45359237 := by ring
    rw [e, div_lt_div_iff₀ (by norm_num) (by norm_num)]
    nlinarith [hsq]

/-- Witness for C6 amended at height 2 m: bounds (163, 220), so both the
weak and the strict inequality hold there. -/
theorem healthy_range_ordered_witness :
    (healthy_weight_range_lbs 2).1 ≤ (healthy_weight_range_lbs 2).2 ∧
    (healthy_weight_range_lbs 2).1 < (healthy_weight_range_lbs 2).2 :=
  ⟨(healthy_range_ordered 2 (by norm_num)).1,
   (healthy_range_ordered 2 (by norm_num)).2 (by norm_num)⟩

/-- C7: `calculate_bmi` fails (ZeroDivisionError, modelled as `none`)
exactly when height_m = 0, and the composition with `to_metric` never hits
that path for integer feet ≥ 0 and inches in [0,11], because the clamp to
at least one inch keeps the divisor positive. -/
theorem division_guard :
    (∀ height_m weight_kg : ℚ, calculate_bmi height_m weight_kg = none ↔ height_m = 0) ∧
    (∀ (feet inches : ℤ) (lbs : ℚ), 0 ≤ feet → 0 ≤ inches → inches ≤ 11 →
      ∃ b : ℚ, calculate_bmi (to_metric feet inches lbs).1 (to_metric feet inches lbs).2
        = some b) := by
  constructor
  · intro hm w
    unfold calculate_bmi
    split_ifs with hz
    · rw [pow_eq_zero_iff (by norm_num : (2:ℕ) ≠ 0)] at hz
      simp [hz]
    · rw [pow_eq_zero_iff (by norm_num : (2:ℕ) ≠ 0)] at hz
      simp [hz]
  · intro f i l _hf _hi _hi2
    have e : (to_metric f i l).1 = ((max (f * 12 + i) 1 : ℤ) : ℚ) * IN_TO_M := rfl
    have h1 : (1:ℤ) ≤ max (f * 12 + i) 1 := le_max_right _ _
    have h1q : (1:ℚ) ≤ ((max (f * 12 + i) 1 : ℤ) : ℚ) := by exact_mod_cast h1
    have hpos : (0:ℚ) < (to_metric f i l).1 := by
      rw [e]
      unfold IN_TO_M
      nlinarith
    refine ⟨round1 ((to_metric f i l).2 / (to_metric f i l).1 ^ 2), ?_⟩
    unfold calculate_bmi
    rw [if_neg (pow_ne_zero 2 (ne_of_gt hpos))]

/-- Witness for C7 at feet=5, inches=7, pounds=165. -/
theorem division_guard_witness :
    ∃ b : ℚ, calculate_bmi (to_metric 5 7 165).1 (to_metric 5 7 165).2 = some b :=
  division_guard.2 5 7 165 (by norm_num) (by norm_num) (by norm_num)

/-- C8: the four intervals partition the non-negative rationals: for every
bmi ≥ 0 exactly one entry of `CATEGORY_BOUNDS` matches (no gaps, no
overlaps), and the defensive `"Unknown"` fallback of `bmi_category` is
never returned. -/
theorem partition_total (bmi : ℚ) (h : 0 ≤ bmi) :
    (bmi_category bmi).name ≠ "Unknown" ∧
    ∃! e : CatEntry, e ∈ CATEGORY_BOUNDS ∧ inBound e bmi = true := by
  rcases lt_or_le bmi 18.5 with c1 | c1
  · constructor
    · rw [bmi_category_underweight h c1]
      decide
    · refine ⟨⟨0, some 18.5, "Underweight", "#60a5fa", "🪁"⟩,
        ⟨by simp [CATEGORY_BOUNDS], by simp [inBound]; exact ⟨h, c1⟩⟩, ?_⟩
      rintro e ⟨hmem, hin⟩
      simp [CATEGORY_BOUNDS] at hmem
      rcases hmem with rfl | rfl | rfl | rfl
      · rfl
      · simp [inBound] at hin; exfalso; linarith [hin.1]
      · simp [inBound] at hin; exfalso; linarith [hin.1]
      · simp [inBound] at hin; exfalso; linarith
  rcases lt_or_le bmi 25 with c2 | c2
  · constructor
    · rw [bmi_category_normal c1 c2]
      decide
    · refine ⟨⟨18.5, some 25, "Normal weight", "#34d399", "🥑"⟩,
        ⟨by simp [CATEGORY_BOUNDS], by simp [inBound]; exact ⟨c1, c2⟩⟩, ?_⟩
      rintro e ⟨hmem, hin⟩
      simp [CATEGORY_BOUNDS] at hmem
      rcases hmem with rfl | rfl | rfl | rfl
      · simp [inBound] at hin; exfalso; linarith [hin.2]
      · rfl
      · simp [inBound] at hin; exfalso; linarith [hin.1]
      · simp [inBound] at hin; exfalso; linarith
  rcases lt_or_le bmi 30 with c3 | c3
  · constructor
    · rw [bmi_category_over c2 c3]
      decide
    · refine ⟨⟨25, some 30, "Overweight", "#f59e0b", "🍯"⟩,
        ⟨by simp [CATEGORY_BOUNDS], by simp [inBound]; exact ⟨c2, c3⟩⟩, ?_⟩
      rintro e ⟨hmem, hin⟩
      simp [CATEGORY_BOUNDS] at hmem
      rcases hmem with rfl | rfl | rfl | rfl
      · simp [inBound] at hin; exfalso; linarith [hin.2]
      · simp [inBound] at hin; exfalso; linarith [hin.2]
      · rfl
      · simp [inBound] at hin; exfalso; linarith
  · constructor
    · rw [bmi_category_obese c3]
      decide
    · refine ⟨⟨30, none, "Obesity", "#ef4444", "🍰"⟩,
        ⟨by simp [CATEGORY_BOUNDS], by simp [inBound]; exact c3⟩, ?_⟩
      rintro e ⟨hmem, hin⟩
      simp [CATEGORY_BOUNDS] at hmem
      rcases hmem with rfl | rfl | rfl | rfl
      · simp [inBound] at hin; exfalso; linarith [hin.2]
      · simp [inBound] at hin; exfalso; linarith [hin.2]
      · simp [inBound] at hin; exfalso; linarith [hin.2]
      · rfl

/-- Witness for C8 at bmi = 22. -/
theorem partition_total_witness : (bmi_category 22).name ≠ "Unknown" :=
  (partition_total 22 (by norm_num)).1

/-- Interval index as a direct function of the BMI value, used to state
monotonicity of the classification. -/
def intervalIdx (b : ℚ) : ℕ :=
  if b < 18.5 then 0 else if b < 25 then 1 else if b < 30 then 2 else 3

lemma nameIdx_bmi_category {b : ℚ} (h : 0 ≤ b) :
    nameIdx (bmi_category b).name = intervalIdx b := by
  unfold intervalIdx
  rcases lt_or_le b 18.5 with c1 | c1
  · rw [bmi_category_underweight h c1, if_pos c1]
    decide
  · rw [if_neg (not_lt.2 c1)]
    rcases lt_or_le b 25 with c2 | c2
    · rw [bmi_category_normal c1 c2, if_pos c2]
      decide
    · rw [if_neg (not_lt.2 c2)]
      rcases lt_or_le b 30 with c3 | c3
      · rw [bmi_category_over c2 c3, if_pos c3]
        decide
      · rw [if_neg (not_lt.2 c3), bmi_category_obese c3]
        decide

/-- C9: the classification is monotone: for 0 ≤ bmi1 < bmi2 the interval
index of the category returned for bmi1 is at most the interval index of
the category returned for bmi2.  (The interval index is only defined for
the four real categories, hence the restriction to non-negative BMI, where
the fallback is never returned.) -/
theorem classify_monotone (b1 b2 : ℚ) (h0 : 0 ≤ b1) (h12 : b1 < b2) :
    nameIdx (bmi_category b1).name ≤ nameIdx (bmi_category b2).name := by
  rw [nameIdx_bmi_category h0, nameIdx_bmi_category (le_trans h0 h12.le)]
  unfold intervalIdx
  split_ifs
  all_goals try norm_num
  all_goals exfalso
  all_goals linarith

/-- Witness for C9 at bmi1 = 17, bmi2 = 26. -/
theorem classify_monotone_witness :
    nameIdx (bmi_category 17).name ≤ nameIdx (bmi_category 26).name :=
  classify_monotone 17 26 (by norm_num) (by norm_num)

/-- C10: both rounding sites use Python's builtin `round`, whose
tie-break is round-half-to-even, modelled here by `pyRound`: a BMI of
exactly 21.25 (height 2 m, weight 85 kg) rounds down to 21.2, and integer
ties round to the even integer (0.5 to 0, 1.5 and 2.5 both to 2); the
healthy-weight bounds are exactly `pyRound` of the raw pound values. -/
theorem rounding_half_even :
    calculate_bmi 2 85 = some 21.2 ∧
    round1 21.25 = 21.2 ∧
    (∀ h : ℚ, healthy_weight_range_lbs h =
      (pyRound (18.5 * h ^ 2 / LBS_TO_KG), pyRound (24.9 * h ^ 2 / LBS_TO_KG))) ∧
    pyRound (1/2) = 0 ∧ pyRound (3/2) = 2 ∧ pyRound (5/2) = 2 := by
  refine ⟨?_, ?_, fun h => rfl, ?_, ?_, ?_⟩
  · unfold calculate_bmi round1 pyRound
    norm_num
  · unfold round1 pyRound
    norm_num
  · unfold pyRound
    norm_num
  · unfold pyRound
    norm_num
  · unfold pyRound
    norm_num
